import Mathlib

/-!
Verification development for the sentiment-analysis dashboard.

The JavaScript sources are embedded shallowly:

* JS numbers are modelled as `ℚ` (all arithmetic in the relevant code is
  exact: `Math.floor`, `+`, `*` on small values); `Math.random()` is modelled
  as an arbitrary stream `rand : ℕ → ℚ` consumed at fixed indices, with the
  bound `0 ≤ rand n < 1` taken as a hypothesis where a property needs it.
  Any concrete execution trace of the JS corresponds to some such stream.
* Possibly-absent object fields are `Option ℚ` / `Option String`;
  `a ?? b` is `Option.getD` (first non-nullish wins, `0` is non-nullish),
  while `a || b` treats `0` / the empty string as falsy.
* `Date` values are modelled by their underlying numeric value (an `ℤ`:
  epoch milliseconds or a day/minute offset, per generator); the
  `toLocaleDateString` / `toLocaleTimeString` string formatting is dropped,
  so ordering statements are about the underlying time values.
* A rejected promise / thrown exception is `Except.error`.
-/

/-- JS `list.slice(-n)` : the last `n` elements (the whole list if shorter). -/
def takeLast (n : ℕ) (l : List α) : List α := l.drop (l.length - n)

/-- JS `v || d` for numbers: `0`, `NaN` and `undefined` are falsy
(`none` models `undefined`/`NaN`). -/
def jsOrNum (v : Option ℚ) (d : ℚ) : ℚ :=
  match v with
  | some x => if x = 0 then d else x
  | none => d

/-- JS `v || d` for numbers where the default is itself a possibly-undefined
number (`none` models `undefined`/`NaN`). -/
def jsOrV (v d : Option ℚ) : Option ℚ :=
  match v with
  | some x => if x = 0 then d else some x
  | none => d

/-- JS `v || d` for strings: the empty string and `undefined` are falsy. -/
def jsOrStr (v : Option String) (d : String) : String :=
  match v with
  | some s => if s = "" then d else s
  | none => d

/-- Resolution chain `full ?? abbr ?? (sc ?? fb)` used by the part_000
dashboard (`item.positive ?? item.pos ?? (item.scores?.positive ?? Math.random()*100)`). -/
def resolve3 (full abbr sc : Option ℚ) (fb : ℚ) : ℚ :=
  full.getD (abbr.getD (sc.getD fb))

/-- Resolution chain `full ?? abbr ?? fb` used by the part_001 dashboard
(`item.positive ?? item.pos ?? Math.random() * 100`): no nested-scores step. -/
def resolve2 (full abbr : Option ℚ) (fb : ℚ) : ℚ :=
  full.getD (abbr.getD fb)

/-- Raw realtime item as delivered by the backend / external classifier:
every field may be absent.  `scores_positive` models `item.scores?.positive`
(absent when either `scores` or the nested field is missing). -/
structure RtRaw where
  timestamp : Option ℤ
  positive : Option ℚ
  pos : Option ℚ
  negative : Option ℚ
  neg : Option ℚ
  neutral : Option ℚ
  neu : Option ℚ
  scores_positive : Option ℚ
  scores_negative : Option ℚ
  scores_neutral : Option ℚ
deriving DecidableEq

/-- Mapped realtime point held in the dashboard's `realTimeData` state. -/
structure RtPoint where
  timestamp : ℤ
  positive : ℚ
  negative : ℚ
  neutral : ℚ
deriving DecidableEq

/-- Synthetic realtime record produced by the part_001 api-layer fallback
generator `generateMockRealtimeData` (timestamp in minutes: `now - i`). -/
structure RtMock where
  timestamp : ℤ
  positive : ℚ
  negative : ℚ
  neutral : ℚ
  sentiment : String
  confidence : ℚ
  source : String
deriving DecidableEq

/-- Source pool `['twitter', 'facebook', 'reviews', 'surveys']` indexed by
`Math.floor(Math.random() * 4)`. -/
def sourcePool : List String := ["twitter", "facebook", "reviews", "surveys"]

/-- part_001 `generateMockRealtimeData(limit)`: the loop runs `i = limit`
down to `1`, pushing a record with timestamp `now - i` minutes; the `j`-th
pushed record (0-based) therefore has `i = limit - j`.  Each iteration
consumes up to 7 random draws, modelled at indices `7*j .. 7*j+6`. -/
def generateMockRealtimeData001 (limit : ℕ) (now : ℤ) (rand : ℕ → ℚ) : List RtMock :=
  (List.range limit).map fun (j : ℕ) =>
    { timestamp := now - ((limit : ℤ) - (j : ℤ))
      positive := rand (7 * j) * 40 + 50
      negative := rand (7 * j + 1) * 20 + 5
      neutral := rand (7 * j + 2) * 20 + 5
      sentiment :=
        if rand (7 * j + 3) > 3 / 10 then "positive"
        else if rand (7 * j + 4) > 1 / 2 then "negative"
        else "neutral"
      confidence := rand (7 * j + 5) * 3 / 10 + 7 / 10
      source := sourcePool.getD (Int.toNat ⌊rand (7 * j + 6) * 4⌋) "twitter" }

/-- Realtime payload shape `{ data: [...] }` returned by `getRealtimeApi`. -/
structure RealtimePayload where
  data : List RtMock
deriving DecidableEq

/-- part_001 `getRealtimeApi(source, limit)`: awaits the HTTP fetch; on any
rejection it catches and returns `{ data: generateMockRealtimeData(limit) }`.
The fetch outcome is the `fetched` parameter. -/
def getRealtimeApi001 (fetched : Except Unit RealtimePayload) (limit : ℕ)
    (now : ℤ) (rand : ℕ → ℚ) : RealtimePayload :=
  match fetched with
  | .ok d => d
  | .error _ => { data := generateMockRealtimeData001 limit now rand }

/-- src/api.js `getRealtimeApi(source, limit)`: no try/catch — it returns the
response data on success and lets a fetch failure reject to the caller. -/
def getRealtimeApiPlain (fetched : Except Unit RealtimePayload) :
    Except Unit RealtimePayload :=
  fetched

/-- Synthetic historical bucket produced by part_001
`generateMockHistoricalData` (all numeric fields come from `Math.floor`). -/
structure HistMock where
  date : ℤ
  positive : ℤ
  negative : ℤ
  neutral : ℤ
  total : ℤ
deriving DecidableEq

/-- part_001 `generateMockHistoricalData(days)`: loop `i = days` down to `1`,
date `base - i` days; the `j`-th pushed bucket has `i = days - j`.  Four
random draws per bucket, at indices `4*j .. 4*j+3`. -/
def generateMockHistoricalData (days : ℕ) (now : ℤ) (rand : ℕ → ℚ) : List HistMock :=
  (List.range days).map fun (j : ℕ) =>
    { date := now - ((days : ℤ) - (j : ℤ))
      positive := ⌊rand (4 * j) * 30⌋ + 60
      negative := ⌊rand (4 * j + 1) * 15⌋ + 5
      neutral := ⌊rand (4 * j + 2) * 15⌋ + 5
      total := ⌊rand (4 * j + 3) * 1000⌋ + 1000 }

/-- Synthetic prediction produced by part_001 `generateMockPredictions`. -/
structure PredMock where
  date : ℤ
  predicted : ℤ
  confidence : ℤ
  lower : ℤ
  upper : ℤ
  positive_score : ℤ
  negative_score : ℤ
  neutral_score : ℤ
deriving DecidableEq

/-- part_001 `generateMockPredictions(days)`: loop `i = 1 .. days`, date
`base + i` days; the `j`-th pushed point has `i = j + 1`.  Seven random draws
per point, at indices `7*j .. 7*j+6`. -/
def generateMockPredictions (days : ℕ) (now : ℤ) (rand : ℕ → ℚ) : List PredMock :=
  (List.range days).map fun (j : ℕ) =>
    { date := now + 1 + (j : ℤ)
      predicted := ⌊rand (7 * j) * 20⌋ + 70
      confidence := ⌊rand (7 * j + 1) * 20⌋ + 70
      lower := ⌊rand (7 * j + 2) * 10⌋ + 65
      upper := ⌊rand (7 * j + 3) * 10⌋ + 80
      positive_score := ⌊rand (7 * j + 4) * 20⌋ + 70
      negative_score := ⌊rand (7 * j + 5) * 15⌋ + 5
      neutral_score := ⌊rand (7 * j + 6) * 15⌋ + 5 }

/-- part_000 dashboard `generateMockRealtimeData()`:
`Array.from({length: 6}, (_, i) => ...)` with timestamp `Date.now() - i*60000`
(milliseconds), so timestamps descend as `i` grows.  Three random draws per
record, at indices `3*i .. 3*i+2`. -/
def generateMockRealtimeData000 (now : ℤ) (rand : ℕ → ℚ) : List RtPoint :=
  (List.range 6).map fun (i : ℕ) =>
    { timestamp := now - (i : ℤ) * 60000
      positive := rand (3 * i) * 40 + 50
      negative := rand (3 * i + 1) * 20 + 5
      neutral := rand (3 * i + 2) * 20 + 5 }

/-- part_000 dashboard per-item mapping inside `fetchRealtime`:
`positive: item.positive ?? item.pos ?? (item.scores?.positive ?? Math.random()*100)`
(and symmetrically for negative / neutral); the timestamp falls back to the
current time when absent or falsy (`item.timestamp || new Date()...`). -/
def mapRtItem000 (nowTs : ℤ) (randP randN randU : ℚ) (item : RtRaw) : RtPoint :=
  { timestamp :=
      match item.timestamp with
      | some t => if t = 0 then nowTs else t
      | none => nowTs
    positive := resolve3 item.positive item.pos item.scores_positive randP
    negative := resolve3 item.negative item.neg item.scores_negative randN
    neutral := resolve3 item.neutral item.neu item.scores_neutral randU }

/-- part_001 dashboard per-item mapping inside `fetchRealtime`:
`positive: item.positive ?? item.pos ?? Math.random() * 100` — unlike the
part_000 mapping there is no `item.scores?.positive` step. -/
def mapRtItem001 (nowTs : ℤ) (randP randN randU : ℚ) (item : RtRaw) : RtPoint :=
  { timestamp :=
      match item.timestamp with
      | some t => if t = 0 then nowTs else t
      | none => nowTs
    positive := resolve2 item.positive item.pos randP
    negative := resolve2 item.negative item.neg randN
    neutral := resolve2 item.neutral item.neu randU }

/-- part_000 `response.data.slice(-20).map(item => ...)`: keep the last 20 raw
items, mapping each through `mapRtItem000`; the `i`-th kept item consumes
random draws `3*i .. 3*i+2` (times 100, as in `Math.random() * 100`). -/
def mapItems000 (items : List RtRaw) (nowTs : ℤ) (rand : ℕ → ℚ) : List RtPoint :=
  (takeLast 20 items).mapIdx fun i item =>
    mapRtItem000 nowTs (rand (3 * i) * 100) (rand (3 * i + 1) * 100)
      (rand (3 * i + 2) * 100) item

/-- Shape of the realtime API response as discriminated by the part_000
dashboard: `{ data: [...] }`, a bare array, or anything else. -/
inductive RtResponse where
  | withData (data : List RtRaw)
  | direct (items : List RtRaw)
  | other
deriving DecidableEq

/-- part_000 dashboard `fetchRealtime` body: `{data: [...]}` and bare-array
responses are sliced to the last 20 and mapped; any other response shape —
and the catch path on a thrown error — yields `generateMockRealtimeData()`. -/
def processRealtime000 (resp : RtResponse) (nowTs now : ℤ) (rand : ℕ → ℚ) : List RtPoint :=
  match resp with
  | .withData data => mapItems000 data nowTs rand
  | .direct items => mapItems000 items nowTs rand
  | .other => generateMockRealtimeData000 now rand

/-- part_001 dashboard `fetchRealtime` success path:
`(rt?.data || []).slice(-20).map(item => ...)` through `mapRtItem001`. -/
def fetchRealtimeMapped001 (arr : List RtRaw) (nowTs : ℤ) (rand : ℕ → ℚ) : List RtPoint :=
  (takeLast 20 arr).mapIdx fun i item =>
    mapRtItem001 nowTs (rand (3 * i) * 100) (rand (3 * i + 1) * 100)
      (rand (3 * i + 2) * 100) item

/-- part_001 dashboard `fetchRealtime` catch path:
`setRealTimeData(prev => [...prev.slice(-19), newSentiment])`. -/
def realtimeUpdateCatch001 (prev : List RtPoint) (newPt : RtPoint) : List RtPoint :=
  takeLast 19 prev ++ [newPt]

/-- Real-time feed rendering (both dashboards):
`realTimeData.slice(-6).reverse().map(...)` — the last six entries, newest
first. -/
def renderFeed (l : List RtPoint) : List RtPoint :=
  (takeLast 6 l).reverse

/-- Raw prediction item as delivered by the predictions API; every field the
dashboards probe may be absent. -/
structure PredRaw where
  date : Option String
  day : Option String
  predicted : Option ℚ
  value : Option ℚ
  positive_score : Option ℚ
  upper : Option ℚ
  upper_bound : Option ℚ
  lower : Option ℚ
  lower_bound : Option ℚ
  confidence : Option ℚ
deriving DecidableEq

/-- Prediction point as mapped by the part_000 dashboard `loadPredictions`. -/
structure PredMapped where
  date : String
  predicted : ℚ
  upper : ℚ
  lower : ℚ
  confidence : ℚ
deriving DecidableEq

/-- part_000 `loadPredictions` mapping:
`predicted: d.predicted || d.positive_score || 0`,
`upper: d.upper || d.upper_bound || (d.predicted || 0) + 3`,
`lower: d.lower || d.lower_bound || (d.predicted || 0) - 3`,
`confidence: d.confidence || 0`, `date: d.date || ''`. -/
def mapPred000 (d : PredRaw) : PredMapped :=
  { date := jsOrStr d.date ""
    predicted := jsOrNum d.predicted (jsOrNum d.positive_score 0)
    upper := jsOrNum d.upper (jsOrNum d.upper_bound (jsOrNum d.predicted 0 + 3))
    lower := jsOrNum d.lower (jsOrNum d.lower_bound (jsOrNum d.predicted 0 - 3))
    confidence := jsOrNum d.confidence 0 }

/-- Prediction point as mapped by the part_001 dashboard `loadPredictions`
(array branch); `d.predicted + 3` on an absent `predicted` is `NaN` in JS,
modelled as `none` via `Option.map`. -/
structure PredMapped001 where
  date : String
  predicted : Option ℚ
  upper : Option ℚ
  lower : Option ℚ
deriving DecidableEq

/-- part_001 `loadPredictions` mapping (array branch):
`predicted: d.predicted || d.value || 0`,
`upper: d.upper || d.upper_bound || d.predicted + 3`,
`lower: d.lower || d.lower_bound || d.predicted - 3`,
`date: d.date || d.day || ''`. -/
def mapPred001 (d : PredRaw) : PredMapped001 :=
  { date := jsOrStr d.date (jsOrStr d.day "")
    predicted := jsOrV d.predicted (jsOrV d.value (some 0))
    upper := jsOrV d.upper (jsOrV d.upper_bound (d.predicted.map (fun x => x + 3)))
    lower := jsOrV d.lower (jsOrV d.lower_bound (d.predicted.map (fun x => x - 3))) }

/-- Modelled from the spec: a `CacheEntry` of the Cache Gate (§4.1), owned by
the backend, which is not part of the frontend sources. -/
structure CacheEntry where
  payload : RealtimePayload
  expires_at : ℤ

/-- Modelled from the spec: the Cache Gate's shared map, keyed by the
`(source, limit)` request fingerprint of `fetch_recent`. -/
def CacheMap : Type := String × ℕ → Option CacheEntry

/-- Modelled from the spec (§4.1): `get_or_compute(key, ttl_seconds, compute)`.
A live entry is returned without invoking `compute`; otherwise `compute` runs
and, on success, is stored with `expires_at = now + ttl`; a failing `compute`
is not cached and its failure is rethrown. -/
def getOrCompute (cache : CacheMap) (key : String × ℕ) (ttl now : ℤ)
    (compute : Except Unit RealtimePayload) :
    Except Unit (RealtimePayload × CacheMap) :=
  match cache key with
  | some e =>
    if now < e.expires_at then .ok (e.payload, cache)
    else
      match compute with
      | .ok p => .ok (p, fun k => if k = key then some ⟨p, now + ttl⟩ else cache k)
      | .error err => .error err
  | none =>
    match compute with
    | .ok p => .ok (p, fun k => if k = key then some ⟨p, now + ttl⟩ else cache k)
    | .error err => .error err

/-- Modelled from the spec (§4.4): `fetch_recent(source, limit)` — the
Ingestion Orchestrator, backend code absent from the frontend sources.
It delegates to the Cache Gate with TTL 120 s; on a cache miss the external
fetch runs and, when it is unavailable or raises, the failure is caught
locally and a synthetic sequence (the part_001 generator shape) is produced
instead — so the computation handed to the gate never fails. -/
def fetchRecent (cache : CacheMap) (now : ℤ) (source : String) (limit : ℕ)
    (upstream : Except Unit (List RtMock)) (rand : ℕ → ℚ) :
    Except Unit (RealtimePayload × CacheMap) :=
  getOrCompute cache (source, limit) 120 now
    (Except.ok
      (match upstream with
       | .ok items => { data := items }
       | .error _ => { data := generateMockRealtimeData001 limit now rand }))

/-- Modelled from the spec: a stored `SentimentRecord` as far as the
Historical Aggregator needs it (source, creation day, score components). -/
structure SRecord where
  source : String
  created_at : ℤ
  pos : ℚ
  neg : ℚ
  neu : ℚ
deriving DecidableEq

/-- Modelled from the spec (§4.5): a historical `Bucket`. -/
structure Bucket where
  period_start : ℤ
  positive_pct : ℚ
  negative_pct : ℚ
  neutral_pct : ℚ
  total_count : ℕ
deriving DecidableEq

/-- The percentage triple of a bucket, used to state the linear-hold rule. -/
def bucketPcts (b : Bucket) : ℚ × ℚ × ℚ :=
  (b.positive_pct, b.negative_pct, b.neutral_pct)

/-- Modelled from the spec (§4.5): records matching a source filter (`"all"`
or an exact source) whose `created_at` falls in `[start, start + 1)`. -/
def matchedIn (recs : List SRecord) (filt : String) (start : ℤ) : List SRecord :=
  recs.filter fun r =>
    (filt = "all" || r.source = filt) && start ≤ r.created_at && r.created_at < start + 1

/-- Mean of a list of rationals (only applied to non-empty lists). -/
def qMean (xs : List ℚ) : ℚ := xs.sum / (xs.length : ℚ)

/-- Modelled from the spec (§4.5): one bucket — the mean of each score
component over the matched records, or, when no record matches, the previous
bucket's percentages repeated (linear hold) with `total_count = 0`. -/
def mkBucket (start : ℤ) (prev : ℚ × ℚ × ℚ) (matched : List SRecord) : Bucket :=
  match matched with
  | [] =>
    { period_start := start
      positive_pct := prev.1
      negative_pct := prev.2.1
      neutral_pct := prev.2.2
      total_count := 0 }
  | m =>
    { period_start := start
      positive_pct := qMean (m.map (fun r => r.pos))
      negative_pct := qMean (m.map (fun r => r.neg))
      neutral_pct := qMean (m.map (fun r => r.neu))
      total_count := m.length }

/-- Modelled from the spec (§4.5): the bucket recursion — one bucket per day
starting at `start`, threading the previous bucket's percentages for the
linear hold. -/
def historicalGo (recs : List SRecord) (filt : String) :
    ℤ → ℚ × ℚ × ℚ → ℕ → List Bucket
  | _, _, 0 => []
  | start, prev, n + 1 =>
    let b := mkBucket start prev (matchedIn recs filt start)
    b :: historicalGo recs filt (start + 1) (bucketPcts b) n

/-- Modelled from the spec (§4.5): `historical(days, source_filter)` — the
Historical Aggregator, backend code absent from the frontend sources.  The
`days` trailing calendar buckets, oldest first, the last one starting at
`now` (the current partial day). -/
def historicalSpec (days : ℕ) (filt : String) (recs : List SRecord) (now : ℤ) :
    List Bucket :=
  historicalGo recs filt (now - (days : ℤ) + 1) (0, 0, 0) days

/-- Modelled from the spec (§3): provenance tag of a prediction point. -/
inductive ModelSource where
  | live
  | stored
  | synthetic
deriving DecidableEq

/-- Modelled from the spec (§3): a `PredictionPoint`. -/
structure PredPoint where
  date : ℤ
  predicted : ℚ
  lower : ℚ
  upper : ℚ
  confidence : ℚ
  model_source : ModelSource
deriving DecidableEq

/-- Clamp to an interval, used for the ensemble confidence. -/
def clampQ (x lo hi : ℚ) : ℚ := max lo (min x hi)

/-- Modelled from the spec (§4.6, live path): combine the sequence and
trend/seasonality models per future day — weighted average of the point
estimates (`w1 = 0.6`, `w2 = 0.4`), union of the bands, confidence
`clamp(1 - (upper - lower)/100, 0, 1)`, tag `live`.  Each model is a
capability `day ↦ (point, lower, upper)`. -/
def combineModels (now : ℤ) (days : ℕ) (seqM trendM : ℕ → ℚ × ℚ × ℚ) :
    List PredPoint :=
  (List.range days).map fun (j : ℕ) =>
    { date := now + 1 + (j : ℤ)
      predicted := 3 / 5 * (seqM j).1 + 2 / 5 * (trendM j).1
      lower := min (seqM j).2.1 (trendM j).2.1
      upper := max (seqM j).2.2 (trendM j).2.2
      confidence := clampQ (1 - (max (seqM j).2.2 (trendM j).2.2 - min (seqM j).2.1 (trendM j).2.1) / 100) 0 1
      model_source := .live }

/-- Modelled from the spec (§4.6, synthetic path): a mildly upward-trending
random walk seeded from the last known historical percentage — drift `1/2`
per day plus centred noise `rand j - 1/2`. -/
def synthWalk (lastHist : ℚ) (rand : ℕ → ℚ) : ℕ → ℚ
  | 0 => lastHist + 1 / 2 + (rand 0 - 1 / 2)
  | j + 1 => synthWalk lastHist rand j + 1 / 2 + (rand (j + 1) - 1 / 2)

/-- Modelled from the spec (§4.6, synthetic path): `days` synthesized points
tagged `synthetic`, each with a symmetric ±5 band around the walk value. -/
def syntheticPredictions (days : ℕ) (now : ℤ) (lastHist : ℚ) (rand : ℕ → ℚ) :
    List PredPoint :=
  (List.range days).map fun (j : ℕ) =>
    { date := now + 1 + (j : ℤ)
      predicted := synthWalk lastHist rand j
      lower := synthWalk lastHist rand j - 5
      upper := synthWalk lastHist rand j + 5
      confidence := 1 / 2
      model_source := .synthetic }

/-- Modelled from the spec (§4.6): the Forecast Ensemble Engine's decision
policy — backend code absent from the frontend sources.  Live path when at
least 45 days of history exist; otherwise the most recent stored batch
covering the horizon, verbatim, re-tagged `stored`; otherwise the synthetic
fallback. -/
def forecastSpec (days span : ℕ) (stored : Option (List PredPoint))
    (seqM trendM : ℕ → ℚ × ℚ × ℚ) (now : ℤ) (lastHist : ℚ) (rand : ℕ → ℚ) :
    List PredPoint :=
  if 45 ≤ span then combineModels now days seqM trendM
  else
    match stored with
    | some batch =>
      if days ≤ batch.length then
        batch.map fun p => { p with model_source := .stored }
      else syntheticPredictions days now lastHist rand
    | none => syntheticPredictions days now lastHist rand

lemma takeLast_length_le (n : ℕ) (l : List α) : (takeLast n l).length ≤ n := by
  simp only [takeLast, List.length_drop]
  omega

lemma takeLast_length (n : ℕ) (l : List α) :
    (takeLast n l).length = min n l.length := by
  simp only [takeLast, List.length_drop]
  omega

lemma chainMapRange {α : Type} (R : α → α → Prop) (f : ℕ → α) (n : ℕ)
    (h : ∀ i : ℕ, R (f i) (f (i + 1))) :
    List.Chain' R ((List.range n).map f) := by
  rw [List.chain'_map]
  cases n with
  | zero => simp
  | succ m => exact (List.chain'_range_succ _ m).mpr fun i _ => h i

lemma randFloorBounds (r : ℚ) (k : ℕ) (hk : 0 < k) (h0 : 0 ≤ r) (h1 : r < 1) :
    0 ≤ ⌊r * (k : ℚ)⌋ ∧ ⌊r * (k : ℚ)⌋ ≤ (k : ℤ) - 1 := by
  have hk0 : (0 : ℚ) < (k : ℚ) := by exact_mod_cast hk
  constructor
  · exact Int.floor_nonneg.mpr (mul_nonneg h0 hk0.le)
  · have : r * (k : ℚ) < (k : ℚ) := by
      calc r * (k : ℚ) < 1 * (k : ℚ) := by
            exact mul_lt_mul_of_pos_right h1 hk0
        _ = (k : ℚ) := one_mul _
    have hf : ⌊r * (k : ℚ)⌋ < (k : ℤ) := by
      rw [Int.floor_lt]
      exact_mod_cast this
    omega

lemma mem_map_range {α : Type} (f : ℕ → α) (n : ℕ) (p : α)
    (hp : p ∈ (List.range n).map f) : ∃ j, j < n ∧ p = f j := by
  rcases List.mem_map.mp hp with ⟨j, hj, rfl⟩
  exact ⟨j, List.mem_range.mp hj, rfl⟩

lemma historicalGo_length (recs : List SRecord) (filt : String) :
    ∀ (n : ℕ) (start : ℤ) (prev : ℚ × ℚ × ℚ),
      (historicalGo recs filt start prev n).length = n := by
  intro n
  induction n with
  | zero => intro start prev; rfl
  | succ m ih =>
    intro start prev
    simp only [historicalGo, List.length_cons]
    rw [ih]

lemma mkBucket_period_start (start : ℤ) (prev : ℚ × ℚ × ℚ) (m : List SRecord) :
    (mkBucket start prev m).period_start = start := by
  cases m <;> rfl

lemma bucketPcts_mkBucket_nil (start : ℤ) (prev : ℚ × ℚ × ℚ) :
    bucketPcts (mkBucket start prev []) = prev := by
  rcases prev with ⟨a, b, c⟩
  rfl

lemma historicalGo_succ (recs : List SRecord) (filt : String) (start : ℤ)
    (prev : ℚ × ℚ × ℚ) (n : ℕ) :
    historicalGo recs filt start prev (n + 1) =
      mkBucket start prev (matchedIn recs filt start) ::
        historicalGo recs filt (start + 1)
          (bucketPcts (mkBucket start prev (matchedIn recs filt start))) n := rfl

lemma historicalGo_chain_start (recs : List SRecord) (filt : String) :
    ∀ (n : ℕ) (start : ℤ) (prev : ℚ × ℚ × ℚ),
      List.Chain' (fun b b2 => b.period_start < b2.period_start)
        (historicalGo recs filt start prev n) := by
  intro n
  induction n with
  | zero => intro start prev; simp [historicalGo]
  | succ m ih =>
    intro start prev
    rw [historicalGo_succ]
    apply List.chain'_cons'.mpr
    refine ⟨?_, ih (start + 1) _⟩
    intro y hy
    cases m with
    | zero => simp [historicalGo] at hy
    | succ k =>
      rw [historicalGo_succ] at hy
      simp only [List.head?_cons, Option.mem_def, Option.some.injEq] at hy
      subst hy
      rw [mkBucket_period_start, mkBucket_period_start]
      omega

lemma historicalGo_chain_hold (recs : List SRecord) (filt : String) :
    ∀ (n : ℕ) (start : ℤ) (prev : ℚ × ℚ × ℚ),
      List.Chain'
        (fun b b2 => matchedIn recs filt b2.period_start = [] →
          bucketPcts b2 = bucketPcts b)
        (historicalGo recs filt start prev n) := by
  intro n
  induction n with
  | zero => intro start prev; simp [historicalGo]
  | succ m ih =>
    intro start prev
    rw [historicalGo_succ]
    apply List.chain'_cons'.mpr
    refine ⟨?_, ih (start + 1) _⟩
    intro y hy
    cases m with
    | zero => simp [historicalGo] at hy
    | succ k =>
      rw [historicalGo_succ] at hy
      simp only [List.head?_cons, Option.mem_def, Option.some.injEq] at hy
      subst hy
      rw [mkBucket_period_start]
      intro hemp
      rw [hemp, bucketPcts_mkBucket_nil]

/-- Constant-zero random stream, a valid `Math.random` trace. -/
def randZero : ℕ → ℚ := fun _ => 0

/-- Random stream whose first draw is `0.95` and all others `0`: a valid
`Math.random` trace under which the first mock prediction draws
`predicted = 89` but `upper = 80`. -/
def c2rand : ℕ → ℚ := fun n => if n = 0 then 19 / 20 else 0

/-- Raw classifier item whose sentiment values are only present under the
nested `scores` object. -/
def c4item : RtRaw :=
  { timestamp := none
    positive := none
    pos := none
    negative := none
    neg := none
    neutral := none
    neu := none
    scores_positive := some 42
    scores_negative := some 10
    scores_neutral := some 48 }

/-- Raw prediction item with a truthy `predicted` and no bound fields. -/
def c10raw : PredRaw :=
  { date := none
    day := none
    predicted := some 50
    value := none
    positive_score := none
    upper := none
    upper_bound := none
    lower := none
    lower_bound := none
    confidence := none }

/-- An empty cache map (no key has a live entry). -/
def emptyCache : CacheMap := fun _ => none

/-- Two concrete realtime points (older, then newer). -/
def ptA : RtPoint := { timestamp := 1, positive := 10, negative := 20, neutral := 70 }

/-- The newer of the two concrete realtime points. -/
def ptB : RtPoint := { timestamp := 2, positive := 30, negative := 30, neutral := 40 }

/-- One stored sentiment record, created on day 0, from twitter. -/
def c6recs : List SRecord :=
  [{ source := "twitter", created_at := 0, pos := 80, neg := 10, neu := 10 }]

/-- One well-formed stored prediction point. -/
def c8point : PredPoint :=
  { date := 3, predicted := 75, lower := 70, upper := 80, confidence := 9 / 10,
    model_source := .live }

/-- Default bucket used only to read a concrete element out of a list. -/
def defaultBucket : Bucket :=
  { period_start := 0, positive_pct := 0, negative_pct := 0, neutral_pct := 0,
    total_count := 0 }

lemma randScaleBounds (r lo amp : ℚ) (h0 : 0 ≤ r) (h1 : r < 1) (hamp : 0 ≤ amp) :
    lo ≤ r * amp + lo ∧ r * amp + lo ≤ amp + lo := by
  constructor
  · nlinarith
  · nlinarith

/-- Default synthetic record used only to read a concrete element out of a
list. -/
def defaultRtMock : RtMock :=
  { timestamp := 0, positive := 0, negative := 0, neutral := 0,
    sentiment := "neutral", confidence := 0, source := "twitter" }

/-- C1 (counterexample): the `src/api.js` variant of the exposed
recent-sentiment operation has no try/catch, so a failing HTTP fetch is
propagated to the caller rather than replaced by a synthetic payload. -/
theorem c1_plain_api_propagates :
    getRealtimeApiPlain (Except.error ()) = Except.error () := rfl

/-- C1 (amended): the part_001 variant of `getRealtimeApi` never propagates a
fetch failure — on any exception it returns a `{ data: [...] }` payload of
exactly `limit` synthetic records, and on success it returns the fetched
payload unchanged; the plain `src/api.js` variant, by contrast, rethrows. -/
theorem c1_realtime_fallback_total :
    ∀ (e : Unit) (d : RealtimePayload) (limit : ℕ) (now : ℤ) (rand : ℕ → ℚ),
      getRealtimeApi001 (Except.error e) limit now rand
          = { data := generateMockRealtimeData001 limit now rand }
      ∧ (generateMockRealtimeData001 limit now rand).length = limit
      ∧ getRealtimeApi001 (Except.ok d) limit now rand = d := by
  intro e d limit now rand
  refine ⟨rfl, ?_, rfl⟩
  simp [generateMockRealtimeData001]

/-- C2 (counterexample): under a legal `Math.random` trace (first draw 0.95,
then 0) the single synthetic forecast point has `predicted = 89` but
`upper = 80`, violating `lower ≤ predicted ≤ upper`. -/
theorem c2_mock_prediction_violates_band :
    (generateMockPredictions 1 0 c2rand).map (fun p => (p.predicted, p.upper))
        = [(89, 80)] ∧ ¬ ((89 : ℤ) ≤ 80) := by
  refine ⟨?_, by decide⟩
  simp only [generateMockPredictions, c2rand, List.range_succ, List.range_zero,
    List.nil_append, List.map_cons, List.map_nil]
  norm_num

/-- C2 (amended): the synthetic forecast fallback returns exactly `days`
points whose dates are `now+1, …, now+days` (strictly increasing, starting
the day after the request) and whose fields lie in their documented ranges —
`predicted ∈ [70,89] ⊆ [0,100]`, `lower ∈ [65,74]`, `upper ∈ [80,89]` — but
`lower ≤ predicted ≤ upper` is not guaranteed on this path, because the three
fields are drawn independently. -/
theorem c2_forecast_mock_shape :
    ∀ (days : ℕ) (now : ℤ) (rand : ℕ → ℚ),
      (∀ n, 0 ≤ rand n ∧ rand n < 1) →
        (generateMockPredictions days now rand).length = days
      ∧ (generateMockPredictions days now rand).map (fun p => p.date)
          = (List.range days).map (fun (j : ℕ) => now + 1 + (j : ℤ))
      ∧ List.Chain' (fun p q => p.date < q.date)
          (generateMockPredictions days now rand)
      ∧ ∀ p ∈ generateMockPredictions days now rand,
          (70 ≤ p.predicted ∧ p.predicted ≤ 89)
        ∧ (0 ≤ p.predicted ∧ p.predicted ≤ 100)
        ∧ (65 ≤ p.lower ∧ p.lower ≤ 74)
        ∧ (80 ≤ p.upper ∧ p.upper ≤ 89) := by
  intro days now rand hr
  refine ⟨by simp [generateMockPredictions], ?_, ?_, ?_⟩
  · simp only [generateMockPredictions, List.map_map]
    rfl
  · apply chainMapRange
    intro i
    dsimp only
    omega
  · intro p hp
    obtain ⟨j, hj, hpj⟩ := mem_map_range _ _ _ hp
    subst hpj
    dsimp only
    have b1 := randFloorBounds (rand (7 * j)) 20 (by norm_num) (hr _).1 (hr _).2
    have b2 := randFloorBounds (rand (7 * j + 2)) 10 (by norm_num) (hr _).1 (hr _).2
    have b3 := randFloorBounds (rand (7 * j + 3)) 10 (by norm_num) (hr _).1 (hr _).2
    norm_num at b1 b2 b3
    refine ⟨⟨by omega, by omega⟩, ⟨by omega, by omega⟩, ⟨by omega, by omega⟩,
      by omega, by omega⟩

/-- C3 (counterexample): under the all-zero `Math.random` trace the synthetic
realtime record has components `(50, 5, 5)`, whose sum 60 is far below the
claimed `100 ± 0.5`. -/
theorem c3_mock_realtime_sum_not_normalized :
    (generateMockRealtimeData001 1 0 randZero).map
        (fun it => it.positive + it.negative + it.neutral) = [60]
      ∧ ((60 : ℚ) < 100 - 1 / 2) := by
  refine ⟨?_, by norm_num⟩
  simp only [generateMockRealtimeData001, randZero, List.range_succ,
    List.range_zero, List.nil_append, List.map_cons, List.map_nil]
  norm_num

/-- C3 (amended): each component of a synthetic realtime record lies in its
documented range (`positive ∈ [50,90]`, `negative, neutral ∈ [5,25]`, hence
each in `[0,100]`), but the component sum only lies in `[60,140]` — neither
fallback generator renormalizes the triple to `100 ± 0.5`. -/
theorem c3_mock_score_component_ranges :
    ∀ (limit : ℕ) (now : ℤ) (rand : ℕ → ℚ),
      (∀ n, 0 ≤ rand n ∧ rand n < 1) →
      (∀ it ∈ generateMockRealtimeData001 limit now rand,
          (50 ≤ it.positive ∧ it.positive ≤ 90)
        ∧ (5 ≤ it.negative ∧ it.negative ≤ 25)
        ∧ (5 ≤ it.neutral ∧ it.neutral ≤ 25)
        ∧ (0 ≤ it.positive ∧ it.positive ≤ 100)
        ∧ (0 ≤ it.negative ∧ it.negative ≤ 100)
        ∧ (0 ≤ it.neutral ∧ it.neutral ≤ 100)
        ∧ 60 ≤ it.positive + it.negative + it.neutral
        ∧ it.positive + it.negative + it.neutral ≤ 140)
      ∧ (∀ it ∈ generateMockRealtimeData000 now rand,
          (50 ≤ it.positive ∧ it.positive ≤ 90)
        ∧ (5 ≤ it.negative ∧ it.negative ≤ 25)
        ∧ (5 ≤ it.neutral ∧ it.neutral ≤ 25)
        ∧ 60 ≤ it.positive + it.negative + it.neutral
        ∧ it.positive + it.negative + it.neutral ≤ 140) := by
  intro limit now rand hr
  constructor
  · intro it hit
    obtain ⟨j, hj, hij⟩ := mem_map_range _ _ _ hit
    subst hij
    dsimp only
    have p1 := randScaleBounds (rand (7 * j)) 50 40 (hr _).1 (hr _).2 (by norm_num)
    have p2 := randScaleBounds (rand (7 * j + 1)) 5 20 (hr _).1 (hr _).2 (by norm_num)
    have p3 := randScaleBounds (rand (7 * j + 2)) 5 20 (hr _).1 (hr _).2 (by norm_num)
    refine ⟨⟨by linarith, by linarith⟩, ⟨by linarith, by linarith⟩,
      ⟨by linarith, by linarith⟩, ⟨by linarith, by linarith⟩,
      ⟨by linarith, by linarith⟩, ⟨by linarith, by linarith⟩,
      by linarith, by linarith⟩
  · intro it hit
    obtain ⟨j, hj, hij⟩ := mem_map_range _ _ _ hit
    subst hij
    dsimp only
    have p1 := randScaleBounds (rand (3 * j)) 50 40 (hr _).1 (hr _).2 (by norm_num)
    have p2 := randScaleBounds (rand (3 * j + 1)) 5 20 (hr _).1 (hr _).2 (by norm_num)
    have p3 := randScaleBounds (rand (3 * j + 2)) 5 20 (hr _).1 (hr _).2 (by norm_num)
    refine ⟨⟨by linarith, by linarith⟩, ⟨by linarith, by linarith⟩,
      ⟨by linarith, by linarith⟩, by linarith, by linarith⟩

/-- C4 (counterexample): in the part_001 dashboard mapping, an item whose
positive value is present only under the nested `scores` object gets the
random fallback (here 7) instead of the nested value 42 — the nested-scores
step of the claimed resolution order is absent there. -/
theorem c4_scores_step_skipped :
    (mapRtItem001 0 7 7 7 c4item).positive = 7
      ∧ c4item.scores_positive = some 42 ∧ (7 : ℚ) ≠ 42 := by
  exact ⟨rfl, rfl, by norm_num⟩

/-- C4 (amended): the part_000 dashboard resolves each sentiment field by
full name, then abbreviated key, then nested scores object, then the random
fallback, first present (non-nullish) source winning; the part_001 dashboard
uses the same order but without the nested-scores step, falling straight to
the random value.  The final conjuncts tie each mapped field to its
resolution chain. -/
theorem c4_resolution_order :
    ∀ (full abbr sc : Option ℚ) (fb : ℚ) (nowTs : ℤ) (rP rN rU : ℚ) (item : RtRaw),
      (∀ x, full = some x → resolve3 full abbr sc fb = x)
    ∧ (full = none → ∀ x, abbr = some x → resolve3 full abbr sc fb = x)
    ∧ (full = none → abbr = none → ∀ x, sc = some x → resolve3 full abbr sc fb = x)
    ∧ (full = none → abbr = none → sc = none → resolve3 full abbr sc fb = fb)
    ∧ (∀ x, full = some x → resolve2 full abbr fb = x)
    ∧ (full = none → ∀ x, abbr = some x → resolve2 full abbr fb = x)
    ∧ (full = none → abbr = none → resolve2 full abbr fb = fb)
    ∧ (mapRtItem000 nowTs rP rN rU item).positive
        = resolve3 item.positive item.pos item.scores_positive rP
    ∧ (mapRtItem000 nowTs rP rN rU item).negative
        = resolve3 item.negative item.neg item.scores_negative rN
    ∧ (mapRtItem000 nowTs rP rN rU item).neutral
        = resolve3 item.neutral item.neu item.scores_neutral rU
    ∧ (mapRtItem001 nowTs rP rN rU item).positive = resolve2 item.positive item.pos rP
    ∧ (mapRtItem001 nowTs rP rN rU item).negative = resolve2 item.negative item.neg rN
    ∧ (mapRtItem001 nowTs rP rN rU item).neutral = resolve2 item.neutral item.neu rU := by
  intro full abbr sc fb nowTs rP rN rU item
  refine ⟨?_, ?_, ?_, ?_, ?_, ?_, ?_, rfl, rfl, rfl, rfl, rfl, rfl⟩
  · rintro x rfl; rfl
  · rintro rfl x rfl; rfl
  · rintro rfl rfl x rfl; rfl
  · rintro rfl rfl rfl; rfl
  · rintro x rfl; rfl
  · rintro rfl x rfl; rfl
  · rintro rfl rfl; rfl

/-- C4 (witness): the resolution chains evaluated at a concrete input where
only the nested-scores source is present. -/
theorem c4_resolution_order_witness :
    resolve3 none none (some 42) 7 = 42 ∧ resolve2 none none 7 = 7 :=
  ⟨(c4_resolution_order none none (some 42) 7 0 0 0 0 c4item).2.2.1 rfl rfl 42 rfl,
   (c4_resolution_order none none (some 42) 7 0 0 0 0 c4item).2.2.2.2.2.2.1 rfl rfl⟩

/-- C5: two `fetch_recent(source, limit)` calls against the same key within
the 120-second TTL, the first hitting an empty cache slot, return the same
payload — the first call stores its (possibly synthetic-fallback) payload,
the second is served from the cache.  Cache Gate and orchestrator are
modelled from the spec because this backend code is not under src/. -/
theorem c5_cached_fetch_deterministic :
    ∀ (cache0 : CacheMap) (t0 t1 : ℤ) (source : String) (limit : ℕ)
      (u1 u2 : Except Unit (List RtMock)) (r1 r2 : ℕ → ℚ),
      cache0 (source, limit) = none → t0 ≤ t1 → t1 < t0 + 120 →
      ∃ p c1 c2,
        fetchRecent cache0 t0 source limit u1 r1 = Except.ok (p, c1)
        ∧ fetchRecent c1 t1 source limit u2 r2 = Except.ok (p, c2) := by
  intro cache0 t0 t1 source limit u1 u2 r1 r2 hmiss h01 h1
  refine ⟨(match u1 with
      | .ok items => { data := items }
      | .error _ => { data := generateMockRealtimeData001 limit t0 r1 }),
    (fun k => if k = (source, limit) then
        some ⟨(match u1 with
          | .ok items => { data := items }
          | .error _ => { data := generateMockRealtimeData001 limit t0 r1 }), t0 + 120⟩
      else cache0 k),
    (fun k => if k = (source, limit) then
        some ⟨(match u1 with
          | .ok items => { data := items }
          | .error _ => { data := generateMockRealtimeData001 limit t0 r1 }), t0 + 120⟩
      else cache0 k), ?_, ?_⟩
  · unfold fetchRecent getOrCompute
    rw [hmiss]
  · unfold fetchRecent getOrCompute
    simp [h1]

/-- C5 (witness): the determinism theorem applied at a concrete pair of
calls (empty cache, both upstream fetches failing, times 0 and 60). -/
theorem c5_cached_fetch_deterministic_witness :
    ∃ p c1 c2,
      fetchRecent emptyCache 0 "all" 2 (Except.error ()) randZero
          = Except.ok (p, c1)
      ∧ fetchRecent c1 60 "all" 2 (Except.error ()) randZero
          = Except.ok (p, c2) :=
  c5_cached_fetch_deterministic emptyCache 0 60 "all" 2 (Except.error ())
    (Except.error ()) randZero randZero rfl (by norm_num) (by norm_num)

/-- C6: the historical operation (aggregator modelled from the spec — backend
code not under src/) returns exactly `days` buckets with strictly increasing
(oldest-first) period starts and non-negative counts, and a bucket with no
matching records repeats the previous bucket's percentages (linear hold);
the src fallback generator also returns exactly `days` buckets oldest-first. -/
theorem c6_historical_shape :
    ∀ (days : ℕ) (filt : String) (recs : List SRecord) (now : ℤ) (rand : ℕ → ℚ),
      (historicalSpec days filt recs now).length = days
    ∧ List.Chain' (fun b b2 => b.period_start < b2.period_start)
        (historicalSpec days filt recs now)
    ∧ List.Chain'
        (fun b b2 => matchedIn recs filt b2.period_start = [] →
          bucketPcts b2 = bucketPcts b)
        (historicalSpec days filt recs now)
    ∧ (∀ b ∈ historicalSpec days filt recs now, 0 ≤ b.total_count)
    ∧ (generateMockHistoricalData days now rand).length = days
    ∧ List.Chain' (fun a b => a.date < b.date)
        (generateMockHistoricalData days now rand) := by
  intro days filt recs now rand
  refine ⟨historicalGo_length recs filt days _ _,
    historicalGo_chain_start recs filt days _ _,
    historicalGo_chain_hold recs filt days _ _,
    fun b _ => Nat.zero_le _,
    by simp [generateMockHistoricalData], ?_⟩
  apply chainMapRange
  intro i
  dsimp only
  omega

/-- C6 (witness): the shape theorem applied to one twitter record on day 0
over a two-day window ending on day 1 (the second bucket is empty). -/
theorem c6_historical_shape_witness :
    (historicalSpec 2 "all" c6recs 1).length = 2
    ∧ 0 ≤ ((historicalSpec 2 "all" c6recs 1).getD 0 defaultBucket).total_count :=
  ⟨(c6_historical_shape 2 "all" c6recs 1 randZero).1,
   (c6_historical_shape 2 "all" c6recs 1 randZero).2.2.2.1 _ (by
      have hlen : 0 < (historicalSpec 2 "all" c6recs 1).length := by
        rw [(c6_historical_shape 2 "all" c6recs 1 randZero).1]
        norm_num
      rw [List.getD_eq_getElem?_getD, List.getElem?_eq_getElem hlen,
        Option.getD_some]
      exact List.getElem_mem hlen)⟩

/-- C7 (counterexample): the part_001 api-layer fallback generator orders its
records by ascending synthetic timestamp (here `[-2, -1]` minutes), not by
descending timestamp as claimed. -/
theorem c7_mock001_timestamps_ascend :
    (generateMockRealtimeData001 2 0 randZero).map (fun it => it.timestamp)
        = [-2, -1] ∧ ((-2 : ℤ) < -1) := by
  refine ⟨?_, by decide⟩
  simp only [generateMockRealtimeData001, randZero, List.range_succ,
    List.range_zero, List.nil_append, List.map_append, List.map_cons,
    List.map_nil]
  norm_num

/-- C7 (amended): the part_000 dashboard fallback generator orders its six
records by strictly descending synthetic timestamp (newest first), while the
part_001 api-layer fallback generator orders its records by strictly
ascending synthetic timestamp (most-recent-last, matching the contract for
the external path). -/
theorem c7_fallback_orderings :
    ∀ (now : ℤ) (rand : ℕ → ℚ) (limit : ℕ),
      List.Chain' (fun a b => b.timestamp < a.timestamp)
        (generateMockRealtimeData000 now rand)
      ∧ List.Chain' (fun a b => a.timestamp < b.timestamp)
        (generateMockRealtimeData001 limit now rand) := by
  intro now rand limit
  constructor
  · apply chainMapRange
    intro i
    dsimp only
    omega
  · apply chainMapRange
    intro i
    dsimp only
    omega

/-- C8: the forecast decision policy (modelled from the spec — backend code
not under src/): with history span below 45 days, a stored batch covering
the horizon is returned verbatim with every point tagged `stored`; with no
stored batch the synthetic fallback produces exactly `days` points, all
tagged `synthetic` and each satisfying `lower ≤ predicted ≤ upper`; stored
points satisfying the data-model band invariant keep satisfying it after
re-tagging; and for `days ≥ 1` the result is never empty on any path. -/
theorem c8_forecast_fallback_chain :
    ∀ (days span : ℕ) (stored : Option (List PredPoint))
      (seqM trendM : ℕ → ℚ × ℚ × ℚ) (now : ℤ) (lastHist : ℚ) (rand : ℕ → ℚ),
      (span < 45 →
        (∀ batch, stored = some batch → days ≤ batch.length →
            forecastSpec days span stored seqM trendM now lastHist rand
              = batch.map (fun p => { p with model_source := .stored })
          ∧ (∀ p ∈ forecastSpec days span stored seqM trendM now lastHist rand,
              p.model_source = ModelSource.stored)
          ∧ ((∀ p ∈ batch, p.lower ≤ p.predicted ∧ p.predicted ≤ p.upper) →
              ∀ p ∈ forecastSpec days span stored seqM trendM now lastHist rand,
                p.lower ≤ p.predicted ∧ p.predicted ≤ p.upper))
        ∧ (stored = none →
            (forecastSpec days span stored seqM trendM now lastHist rand).length
              = days
          ∧ ∀ p ∈ forecastSpec days span stored seqM trendM now lastHist rand,
              p.model_source = ModelSource.synthetic
            ∧ p.lower ≤ p.predicted ∧ p.predicted ≤ p.upper))
      ∧ (1 ≤ days →
          forecastSpec days span stored seqM trendM now lastHist rand ≠ []) := by
  intro days span stored seqM trendM now lastHist rand
  constructor
  · intro hspan
    have hif : ¬ (45 ≤ span) := by omega
    constructor
    · rintro batch rfl hcov
      have hres : forecastSpec days span (some batch) seqM trendM now lastHist rand
          = batch.map (fun p => { p with model_source := ModelSource.stored }) := by
        rw [forecastSpec.eq_def, if_neg hif]
        simp only [if_pos hcov]
      refine ⟨hres, ?_, ?_⟩
      · intro p hp
        rw [hres] at hp
        rcases List.mem_map.mp hp with ⟨q, _, rfl⟩
        rfl
      · intro hband p hp
        rw [hres] at hp
        rcases List.mem_map.mp hp with ⟨q, hq, rfl⟩
        exact hband q hq
    · rintro rfl
      have hres : forecastSpec days span none seqM trendM now lastHist rand
          = syntheticPredictions days now lastHist rand := by
        rw [forecastSpec.eq_def, if_neg hif]
      rw [hres]
      refine ⟨by simp [syntheticPredictions], ?_⟩
      intro p hp
      obtain ⟨j, hj, hpj⟩ := mem_map_range _ _ _ hp
      subst hpj
      refine ⟨rfl, by dsimp only; linarith, by dsimp only; linarith⟩
  · intro hd
    apply List.ne_nil_of_length_pos
    rw [forecastSpec.eq_def]
    by_cases h45 : 45 ≤ span
    · rw [if_pos h45]
      simp [combineModels]
      omega
    · rw [if_neg h45]
      cases stored with
      | none =>
        simp only [syntheticPredictions, List.length_map, List.length_range]
        omega
      | some batch =>
        by_cases hcov : days ≤ batch.length
        · simp only [if_pos hcov, List.length_map]
          omega
        · simp only [if_neg hcov, syntheticPredictions, List.length_map,
            List.length_range]
          omega

/-- C8 (witness): the fallback-chain theorem applied with a one-day horizon,
zero history span and no stored batch: the synthetic path returns one point. -/
theorem c8_forecast_fallback_chain_witness :
    (forecastSpec 1 0 none (fun _ => (0, 0, 0)) (fun _ => (0, 0, 0)) 0 70
        randZero).length = 1
    ∧ forecastSpec 1 0 none (fun _ => (0, 0, 0)) (fun _ => (0, 0, 0)) 0 70
        randZero ≠ [] :=
  ⟨(((c8_forecast_fallback_chain 1 0 none (fun _ => (0, 0, 0)) (fun _ => (0, 0, 0))
      0 70 randZero).1 (by norm_num)).2 rfl).1,
   (c8_forecast_fallback_chain 1 0 none (fun _ => (0, 0, 0)) (fun _ => (0, 0, 0))
      0 70 randZero).2 (by norm_num)⟩

lemma renderFeed_length (l : List RtPoint) :
    (renderFeed l).length = min 6 l.length := by
  simp only [renderFeed, List.length_reverse, takeLast, List.length_drop]
  omega

lemma renderFeed_getD (l : List RtPoint) (dflt : RtPoint) (i : ℕ)
    (hi : i < (renderFeed l).length) :
    (renderFeed l).getD i dflt = l.getD (l.length - 1 - i) dflt := by
  have h6 : (renderFeed l).length = min 6 l.length := renderFeed_length l
  have hb2 : l.length - 1 - i < l.length := by omega
  rw [List.getD_eq_getElem?_getD, List.getD_eq_getElem?_getD,
    List.getElem?_eq_getElem hi, List.getElem?_eq_getElem hb2,
    Option.getD_some, Option.getD_some]
  simp only [renderFeed]
  rw [List.getElem_reverse]
  simp only [takeLast, List.getElem_drop]
  congr 1
  simp only [takeLast, List.length_reverse, List.length_drop] at hi h6 ⊢
  omega

/-- C9: after every update path — part_000 mapped response, part_000 mock
fallback, part_001 mapped response, part_001 catch-path append — the
dashboard's real-time list holds at most 20 entries, and the rendered feed
`slice(-6).reverse()` shows at most the 6 most recent entries newest-first
(its `i`-th entry is the stored list's `length - 1 - i`-th entry). -/
theorem c9_realtime_feed_bounds :
    ∀ (resp : RtResponse) (nowTs now : ℤ) (rand : ℕ → ℚ) (arr : List RtRaw)
      (prev : List RtPoint) (pt : RtPoint) (l : List RtPoint) (dflt : RtPoint)
      (i : ℕ),
      (processRealtime000 resp nowTs now rand).length ≤ 20
    ∧ (fetchRealtimeMapped001 arr nowTs rand).length ≤ 20
    ∧ (realtimeUpdateCatch001 prev pt).length ≤ 20
    ∧ (renderFeed l).length ≤ 6
    ∧ (renderFeed l).length = min 6 l.length
    ∧ (i < (renderFeed l).length →
        (renderFeed l).getD i dflt = l.getD (l.length - 1 - i) dflt) := by
  intro resp nowTs now rand arr prev pt l dflt i
  refine ⟨?_, ?_, ?_, ?_, renderFeed_length l, fun hi => renderFeed_getD l dflt i hi⟩
  · cases resp with
    | withData data =>
      simp only [processRealtime000, mapItems000, List.length_mapIdx]
      exact takeLast_length_le 20 data
    | direct items =>
      simp only [processRealtime000, mapItems000, List.length_mapIdx]
      exact takeLast_length_le 20 items
    | other => simp [processRealtime000, generateMockRealtimeData000]
  · simp only [fetchRealtimeMapped001, List.length_mapIdx]
    exact takeLast_length_le 20 arr
  · simp only [realtimeUpdateCatch001, List.length_append, List.length_cons,
      List.length_nil]
    have := takeLast_length_le 19 prev
    omega
  · rw [renderFeed_length]
    omega

/-- C9 (witness): the feed bounds applied to a concrete two-entry list — the
first rendered entry is the last stored entry. -/
theorem c9_realtime_feed_bounds_witness :
    0 < (renderFeed [ptA, ptB]).length
    ∧ (renderFeed [ptA, ptB]).getD 0 ptA = [ptA, ptB].getD 1 ptA :=
  ⟨by decide,
   (c9_realtime_feed_bounds .other 0 0 randZero [] [] ptA [ptA, ptB] ptA
      0).2.2.2.2.2 (by decide)⟩

/-- C10: for a raw prediction item with a truthy `predicted` and none of
`upper`, `lower`, `upper_bound`, `lower_bound` present, both dashboards map
it to a point with `upper = predicted + 3` and `lower = predicted - 3`, so
the mapped point satisfies `lower ≤ predicted ≤ upper`. -/
theorem c10_default_band :
    ∀ (d : PredRaw) (p : ℚ),
      d.predicted = some p → p ≠ 0 →
      d.upper = none → d.upper_bound = none → d.lower = none → d.lower_bound = none →
        (mapPred000 d).predicted = p
      ∧ (mapPred000 d).upper = p + 3
      ∧ (mapPred000 d).lower = p - 3
      ∧ (mapPred000 d).lower ≤ (mapPred000 d).predicted
      ∧ (mapPred000 d).predicted ≤ (mapPred000 d).upper
      ∧ (mapPred001 d).predicted = some p
      ∧ (mapPred001 d).upper = some (p + 3)
      ∧ (mapPred001 d).lower = some (p - 3) := by
  intro d p hp hp0 hu hub hl hlb
  have e0 : (mapPred000 d).predicted = p := by
    simp [mapPred000, jsOrNum, hp, hp0]
  have e1 : (mapPred000 d).upper = p + 3 := by
    simp [mapPred000, jsOrNum, hp, hp0, hu, hub]
  have e2 : (mapPred000 d).lower = p - 3 := by
    simp [mapPred000, jsOrNum, hp, hp0, hl, hlb]
  refine ⟨e0, e1, e2, ?_, ?_, ?_, ?_, ?_⟩
  · rw [e0, e2]; linarith
  · rw [e0, e1]; linarith
  · simp [mapPred001, jsOrV, hp, hp0]
  · simp [mapPred001, jsOrV, hp, hu, hub]
  · simp [mapPred001, jsOrV, hp, hl, hlb]

/-- C10 (witness): the default-band mapping evaluated at a concrete raw item
with `predicted = 50` and no bound fields. -/
theorem c10_default_band_witness :
    (mapPred000 c10raw).upper = 53 ∧ (mapPred000 c10raw).lower = 47
    ∧ (mapPred001 c10raw).upper = some 53 := by
  have h := c10_default_band c10raw 50 rfl (by norm_num) rfl rfl rfl rfl
  refine ⟨?_, ?_, ?_⟩
  · rw [h.2.1]; norm_num
  · rw [h.2.2.1]; norm_num
  · rw [h.2.2.2.2.2.2.1]; norm_num

/-- C2 (witness): the amended forecast-shape theorem applied to a two-day
horizon under the all-zero random trace. -/
theorem c2_forecast_mock_shape_witness :
    (generateMockPredictions 2 0 randZero).length = 2
    ∧ List.Chain' (fun p q => p.date < q.date)
        (generateMockPredictions 2 0 randZero) :=
  ⟨(c2_forecast_mock_shape 2 0 randZero
      (fun _ => ⟨le_rfl, by norm_num [randZero]⟩)).1,
   (c2_forecast_mock_shape 2 0 randZero
      (fun _ => ⟨le_rfl, by norm_num [randZero]⟩)).2.2.1⟩

/-- C3 (witness): the component-range theorem applied to the first record of
a one-record synthetic batch under the all-zero random trace. -/
theorem c3_mock_score_component_ranges_witness :
    50 ≤ ((generateMockRealtimeData001 1 0 randZero).getD 0 defaultRtMock).positive := by
  have h := (c3_mock_score_component_ranges 1 0 randZero
    (fun _ => ⟨le_rfl, by norm_num [randZero]⟩)).1
  have hlen : 0 < (generateMockRealtimeData001 1 0 randZero).length := by
    simp [generateMockRealtimeData001]
  rw [List.getD_eq_getElem?_getD, List.getElem?_eq_getElem hlen, Option.getD_some]
  exact (h _ (List.getElem_mem hlen)).1.1
